import Mathlib

/-!
Shallow embedding of the OpenLL font asset server (`src/unnamed/part_000`,
the final `app.ts`): the `/api/sdf` request handler with its validator
chain, parameter normalization, CLI argument construction, cache-key
hashing, cache-directory/lock handling, and generator invocation callback.

Conventions of the embedding:
* An HTTP query string is a list of key/value pairs; `express` exposes it
  as an object, so field access is modelled by first-match lookup
  (`List.lookup`), which is insensitive to the order of distinct keys.
* The SHA-1 digest is kept abstract: `cacheKeyWith` takes the hash as a
  function argument, since every claim about keys is really a claim about
  the argument string fed to the hash.
* The filesystem state relevant to one request is the state of that
  request's own cache entry: whether `output/<hash>/` exists and whether
  `output/<hash>/.locked` exists.
-/

namespace FontAssets

/-- A query string, as a list of key/value pairs in caller order. -/
abbrev Query := List (String × String)

/-- Field access on the parsed query object: first-match lookup. -/
def lookupQ (q : Query) (k : String) : Option String :=
  List.lookup k q

/-! ### validator.isInt (default options), as used by the custom checks -/

/-- One decimal digit. -/
def isDigitChar (c : Char) : Bool :=
  decide ('0' ≤ c) && decide (c ≤ '9')

/-- `validator.isInt` body after the optional sign: one or more digits.
With default options leading zeroes are allowed (validator.js since 7.0.0,
as bundled with express-validator 4/5): the check is `[-+]?[0-9]+`. -/
def isIntCore (l : List Char) : Bool :=
  !l.isEmpty && l.all isDigitChar

/-- `validator.isInt` with default options: optional sign, then digits. -/
def isIntChars : List Char → Bool
  | [] => false
  | c :: rest => if c = '+' || c = '-' then isIntCore rest else isIntCore (c :: rest)

/-- `validator.isInt` on a string. -/
def isIntStr (s : String) : Bool :=
  isIntChars s.data

/-! ### JavaScript string helpers used by the handler -/

/-- `String.prototype.split(",")` on the character list: splits at every
comma; the empty string yields one empty token, like in JavaScript. -/
def splitCommaChars : List Char → List (List Char)
  | [] => [[]]
  | c :: cs =>
    if c = ',' then [] :: splitCommaChars cs
    else
      match splitCommaChars cs with
      | t :: ts => (c :: t) :: ts
      | [] => [[c]]

/-- `String.prototype.replace(",", " ")` with a string pattern replaces
only the FIRST occurrence of the comma. -/
def replaceFirstComma : List Char → List Char
  | [] => []
  | c :: cs => if c = ',' then ' ' :: cs else c :: replaceFirstComma cs

/-- `val.replace(",", " ")` on a string (first occurrence only). -/
def replaceCommaOnce (s : String) : String :=
  String.mk (replaceFirstComma s.data)

/-- The custom `charcode` validator: `value.split(",").every(validator.isInt)`. -/
def charcodeOk (s : String) : Bool :=
  (splitCommaChars s.data).all isIntChars

/-- The custom `dynamicrange` validator: split at commas, require exactly
two values, every value an integer. -/
def dynamicrangeOk (s : String) : Bool :=
  decide ((splitCommaChars s.data).length = 2) && (splitCommaChars s.data).all isIntChars

/-! ### Request parameters -/

/-- The fields of `AssetGeneratorParams` as delivered by `matchedData`:
every query parameter is a string when present, absent otherwise. -/
structure RawParams where
  distfield : Option String
  packing : Option String
  glyph : Option String
  preset : Option String
  charcode : Option String
  fontsize : Option String
  fontname : Option String
  fontpath : Option String
  padding : Option String
  downsampling : Option String
  dsalgo : Option String
  dynamicrange : Option String
  fnt : Option String
  nocache : Option String
  ignorelock : Option String
deriving DecidableEq, Repr

/-- `matchedData(req, { locations: ["query"] })`: each field is read off
the parsed query object. -/
def rawOfQuery (q : Query) : RawParams where
  distfield := lookupQ q "distfield"
  packing := lookupQ q "packing"
  glyph := lookupQ q "glyph"
  preset := lookupQ q "preset"
  charcode := lookupQ q "charcode"
  fontsize := lookupQ q "fontsize"
  fontname := lookupQ q "fontname"
  fontpath := lookupQ q "fontpath"
  padding := lookupQ q "padding"
  downsampling := lookupQ q "downsampling"
  dsalgo := lookupQ q "dsalgo"
  dynamicrange := lookupQ q "dynamicrange"
  fnt := lookupQ q "fnt"
  nocache := lookupQ q "nocache"
  ignorelock := lookupQ q "ignorelock"

/-- Parameters after the handler's in-place normalization: the twelve CLI
fields stay optional strings, the three flags become booleans. -/
structure Params where
  distfield : Option String
  packing : Option String
  glyph : Option String
  preset : Option String
  charcode : Option String
  fontsize : Option String
  fontname : Option String
  fontpath : Option String
  padding : Option String
  downsampling : Option String
  dsalgo : Option String
  dynamicrange : Option String
  fnt : Bool
  nocache : Bool
  ignorelock : Bool
deriving DecidableEq, Repr

/-- The handler's normalization block:
`params.distfield = params.distfield === "none" ? undefined : "parabola"`,
and presence-to-boolean conversion of `fnt`, `nocache`, `ignorelock`. -/
def processParams (r : RawParams) : Params where
  distfield := if r.distfield = some "none" then none else some "parabola"
  packing := r.packing
  glyph := r.glyph
  preset := r.preset
  charcode := r.charcode
  fontsize := r.fontsize
  fontname := r.fontname
  fontpath := r.fontpath
  padding := r.padding
  downsampling := r.downsampling
  dsalgo := r.dsalgo
  dynamicrange := r.dynamicrange
  fnt := r.fnt.isSome
  nocache := r.nocache.isSome
  ignorelock := r.ignorelock.isSome

/-! ### CLI argument construction -/

/-- `cliParam(params, key, transform?, quote)`: empty for an absent field,
otherwise one token of the form `--key <quote><transformed><quote> `. -/
def cliParam (key : String) (val : Option String) (transform : String → String)
    (quote : String) : String :=
  match val with
  | none => ""
  | some v => "--" ++ key ++ " " ++ quote ++ transform v ++ quote ++ " "

/-- The argument string built by the handler, in its fixed field order;
`fnt`, `nocache` and `ignorelock` never contribute. -/
def argsString (p : Params) : String :=
  cliParam "distfield" p.distfield id "\"" ++
  cliParam "packing" p.packing id "\"" ++
  cliParam "glyph" p.glyph id "\"" ++
  cliParam "preset" p.preset id "\"" ++
  cliParam "charcode" p.charcode replaceCommaOnce "" ++
  cliParam "fontsize" p.fontsize id "\"" ++
  cliParam "fontname" p.fontname id "\"" ++
  cliParam "fontpath" p.fontpath id "\"" ++
  cliParam "padding" p.padding id "\"" ++
  cliParam "downsampling" p.downsampling id "\"" ++
  cliParam "dsalgo" p.dsalgo id "\"" ++
  cliParam "dynamicrange" p.dynamicrange replaceCommaOnce ""

/-- The post-hash sanitization `.replace(/[/=+]/g, "_")`. -/
def sanitizeKeyChar (c : Char) : Char :=
  if c = '/' ∨ c = '=' ∨ c = '+' then '_' else c

/-- The cache key for a request, with the digest (`sha1`/base64 in the
source) abstracted as a function argument `hash`. -/
def cacheKeyWith (hash : String → String) (p : Params) : String :=
  String.mk ((hash (argsString p)).data.map sanitizeKeyChar)

/-- `outputDir = "output/" + argHash + "/"`. -/
def outputDirOf (hash : String → String) (p : Params) : String :=
  "output/" ++ cacheKeyWith hash p ++ "/"

/-! ### Filesystem state of one request's cache entry -/

/-- State of the cache entry for one request's key: whether the entry
directory exists, and whether the `.locked` marker inside it exists. -/
structure FsState where
  dirExists : Bool
  lockExists : Bool
deriving DecidableEq, Repr

/-! ### Responses and handler steps -/

/-- An HTTP response with an explicit body (for the 400 response the JSON
error list is abstracted to a fixed marker string). -/
structure Response where
  status : Nat
  body : String
deriving DecidableEq, Repr

/-- A `res.sendFile` call: the path sent, and whether the `text/plain`
content-type header was set. -/
structure SendFile where
  path : String
  textPlain : Bool
deriving DecidableEq, Repr

/-- `sendFontFile(res, params, directory)`: serves `directory + "atlas."`
plus `fnt` or `png` according to the `fnt` flag, with `text/plain` for
the metrics file. -/
def sendFontFile (p : Params) (directory : String) : SendFile where
  path := directory ++ "atlas." ++ (if p.fnt then "fnt" else "png")
  textPlain := p.fnt

/-- A terminal action of the handler: either a plain response or a file
send. No constructor spawns a process. -/
inductive Final where
  | respond (r : Response)
  | serve (f : SendFile)
deriving DecidableEq, Repr

/-- One step of the `/api/sdf` handler: either it finishes without
spawning, or it spawns the generator (`shell.exec`) with a command line,
recording whether the `mkdir`/`touch .locked` branch ran. -/
inductive Step where
  | done (f : Final)
  | spawn (createdLock : Bool) (cmd : String)
deriving DecidableEq, Repr

/-- Whether a handler step spawns the generator process. -/
def Step.spawns : Step → Bool
  | .spawn _ _ => true
  | .done _ => false

/-- The generator command line:
`./llassetgen-cmd atlas "<outputDir>atlas.png" <args> --fnt`. -/
def execCmd (outputDir : String) (p : Params) : String :=
  "./llassetgen-cmd atlas \"" ++ outputDir ++ "atlas.png\" " ++ argsString p ++ " --fnt"

/-- The 503 body sent on a lock conflict. -/
def lockBusyBody : String :=
  "request with same params in progress - please retry."

/-- The cache/lock decision block of the `/api/sdf` handler, after
validation and normalization:

* entry directory exists and `nocache` unset:
  * `.locked` present and `ignorelock` unset → 503, nothing spawned;
  * `.locked` present and `ignorelock` set → spawn onto the directory;
  * no `.locked` → serve the cached artifact, nothing spawned;
* otherwise → `mkdir` + `touch .locked`, then spawn. -/
def sdfStep (hash : String → String) (p : Params) (fs : FsState) : Step :=
  let outputDir := outputDirOf hash p
  if fs.dirExists && !p.nocache then
    if fs.lockExists then
      if !p.ignorelock then .done (.respond ⟨503, lockBusyBody⟩)
      else .spawn false (execCmd outputDir p)
    else .done (.serve (sendFontFile p outputDir))
  else .spawn true (execCmd outputDir p)

/-- Entry state after the handler has decided to spawn: in every spawn
path the directory exists and the lock marker is present. -/
def fsAfterBegin : FsState where
  dirExists := true
  lockExists := true

/-- The `shell.exec` callback: `shell.rm(outputDir + ".locked")` runs
first unconditionally; a non-zero exit code yields a 500 response whose
body is the captured stdout; exit code 0 serves the artifact. Its result
type contains no spawn, so a build attempt invokes the generator exactly
once. -/
def execCallback (hash : String → String) (p : Params) (fs : FsState)
    (code : Int) (stdout stderr : String) : FsState × Final :=
  let fs' : FsState := ⟨fs.dirExists, false⟩
  if code ≠ 0 then (fs', .respond ⟨500, stdout⟩)
  else (fs', .serve (sendFontFile p (outputDirOf hash p)))

/-! ### The validator chain -/

/-- An `.optional()` check: passes when the field is absent. -/
def optionalCheck (v : Option String) (f : String → Bool) : Bool :=
  match v with
  | none => true
  | some s => f s

/-- A required `.isIn(xs)` check inside `oneOf`: fails when absent. -/
def requiredIn (v : Option String) (xs : List String) : Bool :=
  match v with
  | none => false
  | some s => xs.contains s

/-- The `oneOf` glyph-selection group: `glyph` is a string (any present
query value passes `isString`), or `preset` is one of the two presets, or
`charcode` passes the comma-separated-integers custom check. `oneOf`
passes when AT LEAST one chain passes. -/
def glyphSelectionOk (q : Query) : Bool :=
  (lookupQ q "glyph").isSome ||
  requiredIn (lookupQ q "preset") ["ascii", "preset20180319"] ||
  (match lookupQ q "charcode" with
   | none => false
   | some s => charcodeOk s)

/-- The `oneOf` font-identification group: `fontname` or `fontpath` is a
string. -/
def fontIdOk (q : Query) : Bool :=
  (lookupQ q "fontname").isSome || (lookupQ q "fontpath").isSome

/-- The whole `/api/sdf` validator chain; `validationResult` is empty
exactly when every chain passes. -/
def validateQuery (q : Query) : Bool :=
  optionalCheck (lookupQ q "distfield") (fun s => ["deadrec", "parabola", "none"].contains s) &&
  optionalCheck (lookupQ q "packing") (fun s => ["maxrects", "shelf"].contains s) &&
  glyphSelectionOk q &&
  optionalCheck (lookupQ q "fontsize") isIntStr &&
  fontIdOk q &&
  optionalCheck (lookupQ q "padding") isIntStr &&
  optionalCheck (lookupQ q "downsampling") isIntStr &&
  optionalCheck (lookupQ q "dsalgo") (fun s => ["average", "center", "min"].contains s) &&
  optionalCheck (lookupQ q "dynamicrange") dynamicrangeOk

/-- The full `/api/sdf` handler on a query: a failed validation returns
400 before the filesystem is ever consulted; otherwise the normalized
parameters drive the cache/lock decision block. -/
def handleRequest (hash : String → String) (q : Query) (fs : FsState) : Step :=
  if !validateQuery q then .done (.respond ⟨400, "[validation errors]"⟩)
  else sdfStep hash (processParams (rawOfQuery q)) fs

/-- The twelve CLI-relevant query keys, in the handler's fixed argument
order; `fnt`, `nocache`, `ignorelock` are not among them. -/
def cliKeys : List String :=
  ["distfield", "packing", "glyph", "preset", "charcode", "fontsize",
   "fontname", "fontpath", "padding", "downsampling", "dsalgo", "dynamicrange"]

/-! ### Concrete example requests -/

/-- The spec's running example request: `preset=ascii`, `fontname=Arial`. -/
def exampleRaw : RawParams where
  distfield := none
  packing := none
  glyph := none
  preset := some "ascii"
  charcode := none
  fontsize := none
  fontname := some "Arial"
  fontpath := none
  padding := none
  downsampling := none
  dsalgo := none
  dynamicrange := none
  fnt := none
  nocache := none
  ignorelock := none

/-- The example request with `nocache=1` added. -/
def exampleRawNocache : RawParams :=
  { exampleRaw with nocache := some "1" }

/-- The example request with an explicit `distfield=deadrec` selection. -/
def exampleRawDeadrec : RawParams :=
  { exampleRaw with distfield := some "deadrec" }

/-- A request selecting glyphs by a three-element character-code list. -/
def exampleRawCharcode : RawParams :=
  { exampleRaw with preset := none, charcode := some "65,66,67" }

/-- The example request with the `fnt` metrics-format flag set. -/
def exampleRawFnt : RawParams :=
  { exampleRaw with fnt := some "1" }

/-- The example request as a query string, `fontname` first. -/
def exampleQueryA : Query :=
  [("fontname", "Arial"), ("preset", "ascii")]

/-- The same query with its parameters supplied in the opposite order. -/
def exampleQueryB : Query :=
  [("preset", "ascii"), ("fontname", "Arial")]

/-- A query setting two glyph-selection fields and two font-identification
fields at once. -/
def overdeterminedQuery : Query :=
  [("glyph", "a"), ("preset", "ascii"), ("fontname", "Arial"), ("fontpath", "/f")]

/-! ### The twelve CLI-relevant fields as an enumeration -/

/-- The CLI-relevant fields, one constructor per argument position. -/
inductive CliField where
  | distfield | packing | glyph | preset | charcode | fontsize
  | fontname | fontpath | padding | downsampling | dsalgo | dynamicrange
deriving DecidableEq, Fintype, Repr

/-- Projection of a CLI-relevant field out of the normalized parameters. -/
def getCli (p : Params) : CliField → Option String
  | .distfield => p.distfield
  | .packing => p.packing
  | .glyph => p.glyph
  | .preset => p.preset
  | .charcode => p.charcode
  | .fontsize => p.fontsize
  | .fontname => p.fontname
  | .fontpath => p.fontpath
  | .padding => p.padding
  | .downsampling => p.downsampling
  | .dsalgo => p.dsalgo
  | .dynamicrange => p.dynamicrange

/-- An optional `charcode` field that passed its validator chain. -/
def optCharcodeOk : Option String → Bool
  | none => true
  | some s => charcodeOk s

/-- An optional `dynamicrange` field that passed its validator chain. -/
def optDynamicrangeOk : Option String → Bool
  | none => true
  | some s => dynamicrangeOk s

/-! ## Theorems -/

/-- Claim C2: for a valid request with `nocache` unset arriving at a Ready
entry (directory exists, no lock marker), the handler spawns no generator
process and serves the cached artifact from the entry directory via
`sendFontFile`. -/
theorem cacheHit_serves_without_spawn (hash : String → String) (p : Params)
    (hn : p.nocache = false) :
    sdfStep hash p ⟨true, false⟩ =
      .done (.serve (sendFontFile p (outputDirOf hash p))) ∧
    (sdfStep hash p ⟨true, false⟩).spawns = false := by
  constructor <;> simp [sdfStep, hn, Step.spawns]

/-- Witness for C2 at the concrete example request. -/
theorem cacheHit_serves_without_spawn_witness :
    sdfStep id (processParams exampleRaw) ⟨true, false⟩ =
      .done (.serve (sendFontFile (processParams exampleRaw)
        (outputDirOf id (processParams exampleRaw)))) ∧
    (sdfStep id (processParams exampleRaw) ⟨true, false⟩).spawns = false :=
  cacheHit_serves_without_spawn id (processParams exampleRaw) rfl

/-- Claim C3 counterexample: a request with `nocache` set and `ignorelock`
unset, observing a Building entry (directory and lock marker both
present), does NOT get the 503 lock-conflict response — it spawns the
generator, because the `nocache` test short-circuits the lock check. -/
theorem building_entry_spawned_despite_lock :
    (processParams exampleRawNocache).ignorelock = false ∧
    (processParams exampleRawNocache).nocache = true ∧
    (sdfStep id (processParams exampleRawNocache) ⟨true, true⟩).spawns = true := by
  refine ⟨rfl, rfl, rfl⟩

/-- Claim C3 (amended): a request with BOTH `nocache` and `ignorelock`
unset, observing a Building entry, terminates immediately with the 503
retry response and spawns no generator process. -/
theorem lockConflict_503_when_flags_unset (hash : String → String) (p : Params)
    (hn : p.nocache = false) (hi : p.ignorelock = false) :
    sdfStep hash p ⟨true, true⟩ = .done (.respond ⟨503, lockBusyBody⟩) ∧
    (sdfStep hash p ⟨true, true⟩).spawns = false := by
  constructor <;> simp [sdfStep, hn, hi, Step.spawns]

/-- Witness for the amended C3 at the concrete example request. -/
theorem lockConflict_503_when_flags_unset_witness :
    sdfStep id (processParams exampleRaw) ⟨true, true⟩ =
      .done (.respond ⟨503, lockBusyBody⟩) ∧
    (sdfStep id (processParams exampleRaw) ⟨true, true⟩).spawns = false :=
  lockConflict_503_when_flags_unset id (processParams exampleRaw) rfl rfl

/-- Claim C4 counterexample: after a failed build (exit code 1) the lock
marker is removed, leaving the directory present without artifacts; a
subsequent identical request with no flags set does NOT spawn the
generator again — it takes the cache-hit branch and serves from the
entry. -/
theorem postFailure_request_serves_not_rebuilds :
    (execCallback id (processParams exampleRaw) fsAfterBegin 1 "out" "err").1 =
      ⟨true, false⟩ ∧
    (sdfStep id (processParams exampleRaw) ⟨true, false⟩).spawns = false ∧
    sdfStep id (processParams exampleRaw) ⟨true, false⟩ =
      .done (.serve (sendFontFile (processParams exampleRaw)
        (outputDirOf id (processParams exampleRaw)))) := by
  refine ⟨rfl, rfl, rfl⟩

/-- Claim C4 (amended): a failed build removes the lock marker (so no
normal failure leaves the entry in Building state), but the subsequent
identical request with no flags set does not re-attempt a build: it takes
the cache-hit branch and serves from the artifact-less entry. -/
theorem failure_unlocks_then_cacheHit_path (hash : String → String)
    (p pNext : Params) (fs : FsState) (code : Int) (stdout stderr : String)
    (hn : pNext.nocache = false) :
    (execCallback hash p fs code stdout stderr).1.lockExists = false ∧
    sdfStep hash pNext ⟨true, false⟩ =
      .done (.serve (sendFontFile pNext (outputDirOf hash pNext))) ∧
    (sdfStep hash pNext ⟨true, false⟩).spawns = false := by
  refine ⟨?_, ?_, ?_⟩
  · unfold execCallback
    split <;> rfl
  · simp [sdfStep, hn]
  · simp [sdfStep, hn, Step.spawns]

/-- Witness for the amended C4 at a concrete failing build. -/
theorem failure_unlocks_then_cacheHit_path_witness :
    (execCallback id (processParams exampleRaw) fsAfterBegin 1 "out" "err").1.lockExists
      = false ∧
    sdfStep id (processParams exampleRaw) ⟨true, false⟩ =
      .done (.serve (sendFontFile (processParams exampleRaw)
        (outputDirOf id (processParams exampleRaw)))) ∧
    (sdfStep id (processParams exampleRaw) ⟨true, false⟩).spawns = false :=
  failure_unlocks_then_cacheHit_path id (processParams exampleRaw)
    (processParams exampleRaw) fsAfterBegin 1 "out" "err" rfl

/-- Claim C5: the unset and `none` cases behave as claimed, but an
explicit `distfield=deadrec` selection is clobbered by the default
substitution line: the emitted argument is `--distfield "parabola"`, not
`--distfield "deadrec"`. Evaluation of the code at the failing input. -/
theorem distfield_deadrec_clobbered :
    exampleRawDeadrec.distfield = some "deadrec" ∧
    argsString (processParams exampleRawDeadrec) =
      "--distfield \"parabola\" --preset \"ascii\" --fontname \"Arial\" " ∧
    argsString (processParams exampleRaw) =
      "--distfield \"parabola\" --preset \"ascii\" --fontname \"Arial\" " ∧
    argsString (processParams { exampleRaw with distfield := some "none" }) =
      "--preset \"ascii\" --fontname \"Arial\" " := by
  refine ⟨rfl, by decide, by decide, by decide⟩

/-- Claim C7: the `charcode` transform `val.replace(",", " ")` replaces
only the FIRST comma, so a three-element list keeps its second comma in
the single `--charcode` token. Evaluation of the code at the failing
input. -/
theorem charcode_only_first_comma_replaced :
    charcodeOk "65,66,67" = true ∧
    replaceCommaOnce "65,66,67" = "65 66,67" ∧
    argsString (processParams exampleRawCharcode) =
      "--distfield \"parabola\" --charcode 65 66,67 --fontname \"Arial\" " := by
  refine ⟨by decide, by decide, by decide⟩

/-- Claim C8 counterexample: on a failing build the 500 response body is
exactly the captured stdout; the captured stderr does not occur in it. -/
theorem failure_body_omits_stderr :
    execCallback id (processParams exampleRaw) fsAfterBegin 1 "out" "err" =
      (⟨true, false⟩, .respond ⟨500, "out"⟩) ∧
    ¬ ("err".data <:+: "out".data) := by
  refine ⟨rfl, by decide⟩

/-- Claim C8 (amended): a build attempt invokes the generator exactly once
(the callback's result type has no spawn), and a non-zero exit code yields
a 500 response whose body is the captured stdout; stderr is only logged. -/
theorem failure_single_invocation_500_stdout (hash : String → String) (p : Params)
    (fs : FsState) (code : Int) (stdout stderr : String) (hc : code ≠ 0) :
    execCallback hash p fs code stdout stderr =
      (⟨fs.dirExists, false⟩, .respond ⟨500, stdout⟩) := by
  simp [execCallback, hc]

/-- Witness for the amended C8 at a concrete failing build. -/
theorem failure_single_invocation_500_stdout_witness :
    execCallback id (processParams exampleRaw) fsAfterBegin 1 "out" "err" =
      (⟨true, false⟩, .respond ⟨500, "out"⟩) :=
  failure_single_invocation_500_stdout id (processParams exampleRaw)
    fsAfterBegin 1 "out" "err" (by decide)

/-- Claim C10: with `nocache` set the lock marker is never consulted: for
EVERY filesystem state — including a Building entry with `ignorelock`
unset — the handler takes the `mkdir`/`touch .locked` branch and spawns
the generator, so a 503 lock-conflict response is impossible. -/
theorem nocache_bypasses_lock_check (hash : String → String) (p : Params)
    (fs : FsState) (hn : p.nocache = true) :
    sdfStep hash p fs = .spawn true (execCmd (outputDirOf hash p) p) := by
  simp [sdfStep, hn]

/-- Witness for C10: Building entry, `ignorelock` unset, `nocache` set. -/
theorem nocache_bypasses_lock_check_witness :
    sdfStep id (processParams exampleRawNocache) ⟨true, true⟩ =
      .spawn true (execCmd (outputDirOf id (processParams exampleRawNocache))
        (processParams exampleRawNocache)) :=
  nocache_bypasses_lock_check id (processParams exampleRawNocache) ⟨true, true⟩ rfl

/-- Helper: the argument string reads only the twelve CLI fields. -/
theorem argsString_congr (p₁ p₂ : Params)
    (h1 : p₁.distfield = p₂.distfield) (h2 : p₁.packing = p₂.packing)
    (h3 : p₁.glyph = p₂.glyph) (h4 : p₁.preset = p₂.preset)
    (h5 : p₁.charcode = p₂.charcode) (h6 : p₁.fontsize = p₂.fontsize)
    (h7 : p₁.fontname = p₂.fontname) (h8 : p₁.fontpath = p₂.fontpath)
    (h9 : p₁.padding = p₂.padding) (h10 : p₁.downsampling = p₂.downsampling)
    (h11 : p₁.dsalgo = p₂.dsalgo) (h12 : p₁.dynamicrange = p₂.dynamicrange) :
    argsString p₁ = argsString p₂ := by
  unfold argsString
  rw [h1, h2, h3, h4, h5, h6, h7, h8, h9, h10, h11, h12]

/-- Claim C1: two queries that agree on every CLI-relevant key (a
condition insensitive to the order in which the caller supplied the
parameters, since field access is keyed lookup) produce the same cache
key, whatever the digest function is; `fnt`, `nocache`, `ignorelock` do
not enter the key. -/
theorem cacheKey_determined_by_cli_fields (hash : String → String) (q₁ q₂ : Query)
    (h : ∀ k ∈ cliKeys, lookupQ q₁ k = lookupQ q₂ k) :
    cacheKeyWith hash (processParams (rawOfQuery q₁)) =
      cacheKeyWith hash (processParams (rawOfQuery q₂)) := by
  have hargs : argsString (processParams (rawOfQuery q₁)) =
      argsString (processParams (rawOfQuery q₂)) := by
    apply argsString_congr <;>
      simp [processParams, rawOfQuery,
        h "distfield" (by simp [cliKeys]), h "packing" (by simp [cliKeys]),
        h "glyph" (by simp [cliKeys]), h "preset" (by simp [cliKeys]),
        h "charcode" (by simp [cliKeys]), h "fontsize" (by simp [cliKeys]),
        h "fontname" (by simp [cliKeys]), h "fontpath" (by simp [cliKeys]),
        h "padding" (by simp [cliKeys]), h "downsampling" (by simp [cliKeys]),
        h "dsalgo" (by simp [cliKeys]), h "dynamicrange" (by simp [cliKeys])]
  simp [cacheKeyWith, hargs]

/-- Witness for C1: the example query supplied in both parameter orders. -/
theorem cacheKey_determined_by_cli_fields_witness :
    cacheKeyWith id (processParams (rawOfQuery exampleQueryA)) =
      cacheKeyWith id (processParams (rawOfQuery exampleQueryB)) :=
  cacheKey_determined_by_cli_fields id exampleQueryA exampleQueryB (by decide)

/-- Claim C9 counterexample: a query setting two glyph-selection fields
and two font-identification fields at once passes validation, because the
validator chains are `oneOf` (at least one), not exactly-one. -/
theorem validation_accepts_multiple_selectors :
    validateQuery overdeterminedQuery = true ∧
    (lookupQ overdeterminedQuery "glyph").isSome = true ∧
    (lookupQ overdeterminedQuery "preset").isSome = true ∧
    (lookupQ overdeterminedQuery "fontname").isSome = true ∧
    (lookupQ overdeterminedQuery "fontpath").isSome = true := by
  refine ⟨by decide, by decide, by decide, by decide, by decide⟩

/-- Claim C9 (amended): validation accepts a request only if AT LEAST one
glyph-selection field and AT LEAST one font-identification field passes
its chain; a request failing validation — in particular one missing both
groups — is answered 400 with the cache state never consulted (the result
is the same for every filesystem state). -/
theorem validation_oneOf_and_400_before_cache (hash : String → String) (q : Query) :
    (validateQuery q = true → glyphSelectionOk q = true ∧ fontIdOk q = true) ∧
    (validateQuery q = false → ∀ fs₁ fs₂ : FsState,
      handleRequest hash q fs₁ = .done (.respond ⟨400, "[validation errors]"⟩) ∧
      handleRequest hash q fs₁ = handleRequest hash q fs₂) := by
  constructor
  · intro h
    unfold validateQuery at h
    simp only [Bool.and_eq_true] at h
    obtain ⟨⟨⟨⟨⟨⟨⟨⟨_, _⟩, h3⟩, _⟩, h5⟩, _⟩, _⟩, _⟩, _⟩ := h
    exact ⟨h3, h5⟩
  · intro h fs₁ fs₂
    constructor <;> simp [handleRequest, h]

/-- Witness for the amended C9: the example query passes and carries both
groups; the empty query is rejected 400 regardless of filesystem state. -/
theorem validation_oneOf_and_400_before_cache_witness :
    (glyphSelectionOk exampleQueryA = true ∧ fontIdOk exampleQueryA = true) ∧
    handleRequest id [] ⟨true, true⟩ = .done (.respond ⟨400, "[validation errors]"⟩) :=
  ⟨(validation_oneOf_and_400_before_cache id exampleQueryA).1 (by decide),
   ((validation_oneOf_and_400_before_cache id []).2 (by decide) ⟨true, true⟩
     ⟨false, false⟩).1⟩

/-- Helper: a present field never serializes to the empty string. -/
theorem cliParam_some_ne_empty (key : String) (t : String → String) (quote : String)
    (b : String) : cliParam key (some b) t quote ≠ "" := by
  intro h
  have hd := congrArg String.data h
  simp only [cliParam, String.data_append] at hd
  simp at hd

/-- Helper: equal `cliParam` tokens come from equally absent fields or
from values with equal transforms. -/
theorem cliParam_eq_cases (key : String) (t : String → String) (quote : String)
    (v w : Option String) (h : cliParam key v t quote = cliParam key w t quote) :
    (v = none ∧ w = none) ∨ ∃ a b, v = some a ∧ w = some b ∧ t a = t b := by
  cases v with
  | none =>
    cases w with
    | none => exact Or.inl ⟨rfl, rfl⟩
    | some b => exact absurd h.symm (cliParam_some_ne_empty key t quote b)
  | some a =>
    cases w with
    | none => exact absurd h (cliParam_some_ne_empty key t quote a)
    | some b =>
      refine Or.inr ⟨a, b, rfl, rfl, ?_⟩
      have hd := congrArg String.data h
      simp only [cliParam, String.data_append] at hd
      have h1 := List.append_cancel_right hd
      have h2 := List.append_cancel_right h1
      have h3 := List.append_cancel_left h2
      exact String.ext h3

/-- Helper: an unsigned integer body consists of digits. -/
theorem isIntCore_mem (l : List Char) (h : isIntCore l = true) (c : Char) (hc : c ∈ l) :
    isDigitChar c = true := by
  simp only [isIntCore, Bool.and_eq_true, List.all_eq_true] at h
  exact h.2 c hc

/-- Helper: a `validator.isInt` string consists of a sign or digits. -/
theorem isIntChars_mem (l : List Char) (h : isIntChars l = true) (c : Char) (hc : c ∈ l) :
    c = '+' ∨ c = '-' ∨ isDigitChar c = true := by
  cases l with
  | nil => cases hc
  | cons x xs =>
    simp only [isIntChars] at h
    by_cases hx : x = '+' || x = '-'
    · rw [if_pos hx] at h
      rcases List.mem_cons.mp hc with h1 | h1
      · have hx2 : c = '+' ∨ c = '-' := by rw [h1]; simpa using hx
        rcases hx2 with h2 | h2
        · exact Or.inl h2
        · exact Or.inr (Or.inl h2)
      · exact Or.inr (Or.inr (isIntCore_mem xs h c h1))
    · rw [if_neg hx] at h
      exact Or.inr (Or.inr (isIntCore_mem (x :: xs) h c hc))

/-- Helper: a comma split always yields at least one token. -/
theorem splitCommaChars_ne_nil (l : List Char) : splitCommaChars l ≠ [] := by
  cases l with
  | nil => simp [splitCommaChars]
  | cons c cs =>
    by_cases hc : c = ','
    · simp [splitCommaChars, hc]
    · simp only [splitCommaChars, if_neg hc]
      cases hsp : splitCommaChars cs <;> simp

/-- Helper: every character is a comma or sits in some split token. -/
theorem mem_splitComma (l : List Char) (c : Char) (hc : c ∈ l) :
    c = ',' ∨ ∃ t ∈ splitCommaChars l, c ∈ t := by
  induction l with
  | nil => cases hc
  | cons d ds ih =>
    by_cases hd : d = ','
    · rcases List.mem_cons.mp hc with h1 | h1
      · exact Or.inl (h1.trans hd)
      · rcases ih h1 with h2 | ⟨t, ht, hct⟩
        · exact Or.inl h2
        · refine Or.inr ⟨t, ?_, hct⟩
          rw [show splitCommaChars (d :: ds) = [] :: splitCommaChars ds by
            simp [splitCommaChars, hd]]
          exact List.mem_cons_of_mem _ ht
    · cases hsp : splitCommaChars ds with
      | nil => exact absurd hsp (splitCommaChars_ne_nil ds)
      | cons t ts =>
        have hform : splitCommaChars (d :: ds) = (d :: t) :: ts := by
          simp only [splitCommaChars, if_neg hd, hsp]
        rcases List.mem_cons.mp hc with h1 | h1
        · refine Or.inr ⟨d :: t, ?_, ?_⟩
          · rw [hform]; exact List.mem_cons_self _ _
          · rw [h1]; exact List.mem_cons_self _ _
        · rcases ih h1 with h2 | ⟨u, hu, hcu⟩
          · exact Or.inl h2
          · rw [hsp] at hu
            rcases List.mem_cons.mp hu with h3 | h3
            · refine Or.inr ⟨d :: t, ?_, ?_⟩
              · rw [hform]; exact List.mem_cons_self _ _
              · exact List.mem_cons_of_mem _ (h3 ▸ hcu)
            · refine Or.inr ⟨u, ?_, hcu⟩
              rw [hform]
              exact List.mem_cons_of_mem _ h3

/-- Helper: a string whose comma-split tokens are all integers contains
no space. -/
theorem noSpace_of_tokensInt (l : List Char)
    (h : (splitCommaChars l).all isIntChars = true) : (' ' : Char) ∉ l := by
  intro hmem
  rcases mem_splitComma l ' ' hmem with h1 | ⟨t, ht, hst⟩
  · cases h1
  · have h2 := List.all_eq_true.mp h t ht
    rcases isIntChars_mem t h2 ' ' hst with h3 | h3 | h3
    · cases h3
    · cases h3
    · cases h3


/-- Helper: first-comma replacement is injective on space-free inputs. -/
theorem replaceFirstComma_inj (l₁ l₂ : List Char)
    (h₁ : (' ' : Char) ∉ l₁) (h₂ : (' ' : Char) ∉ l₂)
    (h : replaceFirstComma l₁ = replaceFirstComma l₂) : l₁ = l₂ := by
  induction l₁ generalizing l₂ with
  | nil =>
    cases l₂ with
    | nil => rfl
    | cons d ds =>
      exfalso
      by_cases hd : d = ',' <;> simp [replaceFirstComma, hd] at h
  | cons c cs ih =>
    cases l₂ with
    | nil =>
      exfalso
      by_cases hc : c = ',' <;> simp [replaceFirstComma, hc] at h
    | cons d ds =>
      have hc1 : c ≠ ' ' := fun he => h₁ (he ▸ List.mem_cons_self c cs)
      have hd1 : d ≠ ' ' := fun he => h₂ (he ▸ List.mem_cons_self d ds)
      have hcs : (' ' : Char) ∉ cs := fun hm => h₁ (List.mem_cons_of_mem _ hm)
      have hds : (' ' : Char) ∉ ds := fun hm => h₂ (List.mem_cons_of_mem _ hm)
      by_cases hc : c = ',' <;> by_cases hd : d = ','
      · simp only [replaceFirstComma, if_pos hc, if_pos hd, List.cons.injEq] at h
        rw [hc, hd, h.2]
      · exfalso
        simp only [replaceFirstComma, if_pos hc, if_neg hd, List.cons.injEq] at h
        exact hd1 h.1.symm
      · exfalso
        simp only [replaceFirstComma, if_neg hc, if_pos hd, List.cons.injEq] at h
        exact hc1 h.1
      · simp only [replaceFirstComma, if_neg hc, if_neg hd, List.cons.injEq] at h
        rw [h.1, ih ds hcs hds h.2]

/-- Helper: the charcode transform is injective on validated values. -/
theorem replaceCommaOnce_inj (a b : String)
    (ha : (splitCommaChars a.data).all isIntChars = true)
    (hb : (splitCommaChars b.data).all isIntChars = true)
    (h : replaceCommaOnce a = replaceCommaOnce b) : a = b := by
  have hd : replaceFirstComma a.data = replaceFirstComma b.data := congrArg String.data h
  exact String.ext (replaceFirstComma_inj a.data b.data
    (noSpace_of_tokensInt a.data ha) (noSpace_of_tokensInt b.data hb) hd)

/-- Helper: a quoted untransformed token determines its field. -/
theorem cliParam_id_inj (key : String) (v w : Option String)
    (h : cliParam key v id "\"" = cliParam key w id "\"") : v = w := by
  rcases cliParam_eq_cases key id "\"" v w h with ⟨h1, h2⟩ | ⟨a, b, h1, h2, h3⟩
  · rw [h1, h2]
  · rw [h1, h2]
    exact congrArg some h3

/-- Helper: the charcode token determines a validated charcode field. -/
theorem cliParam_charcode_inj (key : String) (v w : Option String)
    (hv : optCharcodeOk v = true) (hw : optCharcodeOk w = true)
    (h : cliParam key v replaceCommaOnce "" = cliParam key w replaceCommaOnce "") :
    v = w := by
  rcases cliParam_eq_cases key replaceCommaOnce "" v w h with ⟨h1, h2⟩ | ⟨a, b, h1, h2, h3⟩
  · rw [h1, h2]
  · subst h1; subst h2
    simp only [optCharcodeOk, charcodeOk] at hv hw
    exact congrArg some (replaceCommaOnce_inj a b hv hw h3)

/-- Helper: the dynamicrange token determines a validated field. -/
theorem cliParam_dynrange_inj (key : String) (v w : Option String)
    (hv : optDynamicrangeOk v = true) (hw : optDynamicrangeOk w = true)
    (h : cliParam key v replaceCommaOnce "" = cliParam key w replaceCommaOnce "") :
    v = w := by
  rcases cliParam_eq_cases key replaceCommaOnce "" v w h with ⟨h1, h2⟩ | ⟨a, b, h1, h2, h3⟩
  · rw [h1, h2]
  · subst h1; subst h2
    simp only [optDynamicrangeOk, dynamicrangeOk, Bool.and_eq_true] at hv hw
    exact congrArg some (replaceCommaOnce_inj a b hv.2 hw.2 h3)


/-- Claim C6 (amended): two requests whose normalized parameters differ
in exactly one CLI-relevant field (their `charcode` and `dynamicrange`
values validated) produce different argument strings — the inputs of the
hash — so their cache keys differ whenever the digest does not collide;
`fnt`, `nocache` and `ignorelock` never enter the argument string. -/
theorem argsString_injective_single_field (p q : Params) (k : CliField)
    (hpc : optCharcodeOk p.charcode = true) (hqc : optCharcodeOk q.charcode = true)
    (hpd : optDynamicrangeOk p.dynamicrange = true)
    (hqd : optDynamicrangeOk q.dynamicrange = true)
    (hk : getCli p k ≠ getCli q k)
    (hother : ∀ j : CliField, j ≠ k → getCli p j = getCli q j) :
    argsString p ≠ argsString q := by
  cases k with
  | distfield =>
    intro h
    unfold argsString at h
    rw [show p.packing = q.packing from hother CliField.packing (by decide), show p.glyph = q.glyph from hother CliField.glyph (by decide), show p.preset = q.preset from hother CliField.preset (by decide), show p.charcode = q.charcode from hother CliField.charcode (by decide), show p.fontsize = q.fontsize from hother CliField.fontsize (by decide), show p.fontname = q.fontname from hother CliField.fontname (by decide), show p.fontpath = q.fontpath from hother CliField.fontpath (by decide), show p.padding = q.padding from hother CliField.padding (by decide), show p.downsampling = q.downsampling from hother CliField.downsampling (by decide), show p.dsalgo = q.dsalgo from hother CliField.dsalgo (by decide), show p.dynamicrange = q.dynamicrange from hother CliField.dynamicrange (by decide)] at h
    have hd := congrArg String.data h
    simp only [String.data_append] at hd
    iterate 11 replace hd := List.append_cancel_right hd
    exact hk (cliParam_id_inj "distfield" p.distfield q.distfield (String.ext hd))
  | packing =>
    intro h
    unfold argsString at h
    rw [show p.distfield = q.distfield from hother CliField.distfield (by decide), show p.glyph = q.glyph from hother CliField.glyph (by decide), show p.preset = q.preset from hother CliField.preset (by decide), show p.charcode = q.charcode from hother CliField.charcode (by decide), show p.fontsize = q.fontsize from hother CliField.fontsize (by decide), show p.fontname = q.fontname from hother CliField.fontname (by decide), show p.fontpath = q.fontpath from hother CliField.fontpath (by decide), show p.padding = q.padding from hother CliField.padding (by decide), show p.downsampling = q.downsampling from hother CliField.downsampling (by decide), show p.dsalgo = q.dsalgo from hother CliField.dsalgo (by decide), show p.dynamicrange = q.dynamicrange from hother CliField.dynamicrange (by decide)] at h
    have hd := congrArg String.data h
    simp only [String.data_append] at hd
    iterate 10 replace hd := List.append_cancel_right hd
    replace hd := List.append_cancel_left hd
    exact hk (cliParam_id_inj "packing" p.packing q.packing (String.ext hd))
  | glyph =>
    intro h
    unfold argsString at h
    rw [show p.distfield = q.distfield from hother CliField.distfield (by decide), show p.packing = q.packing from hother CliField.packing (by decide), show p.preset = q.preset from hother CliField.preset (by decide), show p.charcode = q.charcode from hother CliField.charcode (by decide), show p.fontsize = q.fontsize from hother CliField.fontsize (by decide), show p.fontname = q.fontname from hother CliField.fontname (by decide), show p.fontpath = q.fontpath from hother CliField.fontpath (by decide), show p.padding = q.padding from hother CliField.padding (by decide), show p.downsampling = q.downsampling from hother CliField.downsampling (by decide), show p.dsalgo = q.dsalgo from hother CliField.dsalgo (by decide), show p.dynamicrange = q.dynamicrange from hother CliField.dynamicrange (by decide)] at h
    have hd := congrArg String.data h
    simp only [String.data_append] at hd
    iterate 9 replace hd := List.append_cancel_right hd
    replace hd := List.append_cancel_left hd
    exact hk (cliParam_id_inj "glyph" p.glyph q.glyph (String.ext hd))
  | preset =>
    intro h
    unfold argsString at h
    rw [show p.distfield = q.distfield from hother CliField.distfield (by decide), show p.packing = q.packing from hother CliField.packing (by decide), show p.glyph = q.glyph from hother CliField.glyph (by decide), show p.charcode = q.charcode from hother CliField.charcode (by decide), show p.fontsize = q.fontsize from hother CliField.fontsize (by decide), show p.fontname = q.fontname from hother CliField.fontname (by decide), show p.fontpath = q.fontpath from hother CliField.fontpath (by decide), show p.padding = q.padding from hother CliField.padding (by decide), show p.downsampling = q.downsampling from hother CliField.downsampling (by decide), show p.dsalgo = q.dsalgo from hother CliField.dsalgo (by decide), show p.dynamicrange = q.dynamicrange from hother CliField.dynamicrange (by decide)] at h
    have hd := congrArg String.data h
    simp only [String.data_append] at hd
    iterate 8 replace hd := List.append_cancel_right hd
    replace hd := List.append_cancel_left hd
    exact hk (cliParam_id_inj "preset" p.preset q.preset (String.ext hd))
  | charcode =>
    intro h
    unfold argsString at h
    rw [show p.distfield = q.distfield from hother CliField.distfield (by decide), show p.packing = q.packing from hother CliField.packing (by decide), show p.glyph = q.glyph from hother CliField.glyph (by decide), show p.preset = q.preset from hother CliField.preset (by decide), show p.fontsize = q.fontsize from hother CliField.fontsize (by decide), show p.fontname = q.fontname from hother CliField.fontname (by decide), show p.fontpath = q.fontpath from hother CliField.fontpath (by decide), show p.padding = q.padding from hother CliField.padding (by decide), show p.downsampling = q.downsampling from hother CliField.downsampling (by decide), show p.dsalgo = q.dsalgo from hother CliField.dsalgo (by decide), show p.dynamicrange = q.dynamicrange from hother CliField.dynamicrange (by decide)] at h
    have hd := congrArg String.data h
    simp only [String.data_append] at hd
    iterate 7 replace hd := List.append_cancel_right hd
    replace hd := List.append_cancel_left hd
    exact hk (cliParam_charcode_inj "charcode" p.charcode q.charcode hpc hqc (String.ext hd))
  | fontsize =>
    intro h
    unfold argsString at h
    rw [show p.distfield = q.distfield from hother CliField.distfield (by decide), show p.packing = q.packing from hother CliField.packing (by decide), show p.glyph = q.glyph from hother CliField.glyph (by decide), show p.preset = q.preset from hother CliField.preset (by decide), show p.charcode = q.charcode from hother CliField.charcode (by decide), show p.fontname = q.fontname from hother CliField.fontname (by decide), show p.fontpath = q.fontpath from hother CliField.fontpath (by decide), show p.padding = q.padding from hother CliField.padding (by decide), show p.downsampling = q.downsampling from hother CliField.downsampling (by decide), show p.dsalgo = q.dsalgo from hother CliField.dsalgo (by decide), show p.dynamicrange = q.dynamicrange from hother CliField.dynamicrange (by decide)] at h
    have hd := congrArg String.data h
    simp only [String.data_append] at hd
    iterate 6 replace hd := List.append_cancel_right hd
    replace hd := List.append_cancel_left hd
    exact hk (cliParam_id_inj "fontsize" p.fontsize q.fontsize (String.ext hd))
  | fontname =>
    intro h
    unfold argsString at h
    rw [show p.distfield = q.distfield from hother CliField.distfield (by decide), show p.packing = q.packing from hother CliField.packing (by decide), show p.glyph = q.glyph from hother CliField.glyph (by decide), show p.preset = q.preset from hother CliField.preset (by decide), show p.charcode = q.charcode from hother CliField.charcode (by decide), show p.fontsize = q.fontsize from hother CliField.fontsize (by decide), show p.fontpath = q.fontpath from hother CliField.fontpath (by decide), show p.padding = q.padding from hother CliField.padding (by decide), show p.downsampling = q.downsampling from hother CliField.downsampling (by decide), show p.dsalgo = q.dsalgo from hother CliField.dsalgo (by decide), show p.dynamicrange = q.dynamicrange from hother CliField.dynamicrange (by decide)] at h
    have hd := congrArg String.data h
    simp only [String.data_append] at hd
    iterate 5 replace hd := List.append_cancel_right hd
    replace hd := List.append_cancel_left hd
    exact hk (cliParam_id_inj "fontname" p.fontname q.fontname (String.ext hd))
  | fontpath =>
    intro h
    unfold argsString at h
    rw [show p.distfield = q.distfield from hother CliField.distfield (by decide), show p.packing = q.packing from hother CliField.packing (by decide), show p.glyph = q.glyph from hother CliField.glyph (by decide), show p.preset = q.preset from hother CliField.preset (by decide), show p.charcode = q.charcode from hother CliField.charcode (by decide), show p.fontsize = q.fontsize from hother CliField.fontsize (by decide), show p.fontname = q.fontname from hother CliField.fontname (by decide), show p.padding = q.padding from hother CliField.padding (by decide), show p.downsampling = q.downsampling from hother CliField.downsampling (by decide), show p.dsalgo = q.dsalgo from hother CliField.dsalgo (by decide), show p.dynamicrange = q.dynamicrange from hother CliField.dynamicrange (by decide)] at h
    have hd := congrArg String.data h
    simp only [String.data_append] at hd
    iterate 4 replace hd := List.append_cancel_right hd
    replace hd := List.append_cancel_left hd
    exact hk (cliParam_id_inj "fontpath" p.fontpath q.fontpath (String.ext hd))
  | padding =>
    intro h
    unfold argsString at h
    rw [show p.distfield = q.distfield from hother CliField.distfield (by decide), show p.packing = q.packing from hother CliField.packing (by decide), show p.glyph = q.glyph from hother CliField.glyph (by decide), show p.preset = q.preset from hother CliField.preset (by decide), show p.charcode = q.charcode from hother CliField.charcode (by decide), show p.fontsize = q.fontsize from hother CliField.fontsize (by decide), show p.fontname = q.fontname from hother CliField.fontname (by decide), show p.fontpath = q.fontpath from hother CliField.fontpath (by decide), show p.downsampling = q.downsampling from hother CliField.downsampling (by decide), show p.dsalgo = q.dsalgo from hother CliField.dsalgo (by decide), show p.dynamicrange = q.dynamicrange from hother CliField.dynamicrange (by decide)] at h
    have hd := congrArg String.data h
    simp only [String.data_append] at hd
    iterate 3 replace hd := List.append_cancel_right hd
    replace hd := List.append_cancel_left hd
    exact hk (cliParam_id_inj "padding" p.padding q.padding (String.ext hd))
  | downsampling =>
    intro h
    unfold argsString at h
    rw [show p.distfield = q.distfield from hother CliField.distfield (by decide), show p.packing = q.packing from hother CliField.packing (by decide), show p.glyph = q.glyph from hother CliField.glyph (by decide), show p.preset = q.preset from hother CliField.preset (by decide), show p.charcode = q.charcode from hother CliField.charcode (by decide), show p.fontsize = q.fontsize from hother CliField.fontsize (by decide), show p.fontname = q.fontname from hother CliField.fontname (by decide), show p.fontpath = q.fontpath from hother CliField.fontpath (by decide), show p.padding = q.padding from hother CliField.padding (by decide), show p.dsalgo = q.dsalgo from hother CliField.dsalgo (by decide), show p.dynamicrange = q.dynamicrange from hother CliField.dynamicrange (by decide)] at h
    have hd := congrArg String.data h
    simp only [String.data_append] at hd
    iterate 2 replace hd := List.append_cancel_right hd
    replace hd := List.append_cancel_left hd
    exact hk (cliParam_id_inj "downsampling" p.downsampling q.downsampling (String.ext hd))
  | dsalgo =>
    intro h
    unfold argsString at h
    rw [show p.distfield = q.distfield from hother CliField.distfield (by decide), show p.packing = q.packing from hother CliField.packing (by decide), show p.glyph = q.glyph from hother CliField.glyph (by decide), show p.preset = q.preset from hother CliField.preset (by decide), show p.charcode = q.charcode from hother CliField.charcode (by decide), show p.fontsize = q.fontsize from hother CliField.fontsize (by decide), show p.fontname = q.fontname from hother CliField.fontname (by decide), show p.fontpath = q.fontpath from hother CliField.fontpath (by decide), show p.padding = q.padding from hother CliField.padding (by decide), show p.downsampling = q.downsampling from hother CliField.downsampling (by decide), show p.dynamicrange = q.dynamicrange from hother CliField.dynamicrange (by decide)] at h
    have hd := congrArg String.data h
    simp only [String.data_append] at hd
    iterate 1 replace hd := List.append_cancel_right hd
    replace hd := List.append_cancel_left hd
    exact hk (cliParam_id_inj "dsalgo" p.dsalgo q.dsalgo (String.ext hd))
  | dynamicrange =>
    intro h
    unfold argsString at h
    rw [show p.distfield = q.distfield from hother CliField.distfield (by decide), show p.packing = q.packing from hother CliField.packing (by decide), show p.glyph = q.glyph from hother CliField.glyph (by decide), show p.preset = q.preset from hother CliField.preset (by decide), show p.charcode = q.charcode from hother CliField.charcode (by decide), show p.fontsize = q.fontsize from hother CliField.fontsize (by decide), show p.fontname = q.fontname from hother CliField.fontname (by decide), show p.fontpath = q.fontpath from hother CliField.fontpath (by decide), show p.padding = q.padding from hother CliField.padding (by decide), show p.downsampling = q.downsampling from hother CliField.downsampling (by decide), show p.dsalgo = q.dsalgo from hother CliField.dsalgo (by decide)] at h
    have hd := congrArg String.data h
    simp only [String.data_append] at hd
    replace hd := List.append_cancel_left hd
    exact hk (cliParam_dynrange_inj "dynamicrange" p.dynamicrange q.dynamicrange hpd hqd (String.ext hd))

/-- Witness for the amended C6: two requests differing exactly in the
`preset` field have different argument strings. -/
theorem argsString_injective_single_field_witness :
    argsString (processParams exampleRaw) ≠
      argsString (processParams { exampleRaw with preset := some "preset20180319" }) :=
  argsString_injective_single_field (processParams exampleRaw)
    (processParams { exampleRaw with preset := some "preset20180319" })
    CliField.preset (by decide) (by decide) (by decide) (by decide)
    (by decide) (by decide)

/-- Claim C6 counterexample: two requests identical except for the `fnt`
output-format flag — which the claim counts among the CLI-relevant,
hash-distinguishing fields — produce the SAME argument string and hence
the same cache key: `--fnt` is appended unconditionally at exec time and
never hashed. -/
theorem fnt_flag_does_not_change_cacheKey :
    (processParams exampleRawFnt).fnt = true ∧
    (processParams exampleRaw).fnt = false ∧
    argsString (processParams exampleRawFnt) = argsString (processParams exampleRaw) ∧
    cacheKeyWith id (processParams exampleRawFnt) =
      cacheKeyWith id (processParams exampleRaw) := by
  refine ⟨rfl, rfl, rfl, rfl⟩

end FontAssets
